import Mathlib

/-!
# Shallow embedding of the DDPG trainer (pytorchrl/algos/ddpg.py)

This file embeds the training-loop orchestration of the `DDPG` class:
the constructor (`__init__`), the per-environment-step body of `train`,
and the update step `do_training` with its two gradient sub-steps
`train_qf` and `train_policy` and the soft target synchronization.

Modelling choices:
* Parameter vectors, observations and actions are lists of rationals
  (the numerics of the claims are exact elementwise formulas, so `ℚ`
  suffices; floating point is not modelled).
* The environment, exploration strategy, replay-pool sampler, and the
  autodiff/optimizer gradient steps are external collaborators; they are
  modelled as opaque function parameters (oracles).  A gradient step is
  an opaque function from the current parameters and its inputs to new
  parameters: the claims about it are frame properties (which parameter
  vectors change), not statements about the computed gradient values.
* The replay pool is modelled as the list of transitions passed to
  `add_sample`, in order; `pool.size` is its length.  The pool itself
  is an external component (`SimpleReplayPool` from rllab).
-/

abbrev Obs := List ℚ
abbrev Act := List ℚ
abbrev Params := List ℚ

/-- A transition as handed to `pool.add_sample(observation, action,
reward, terminal)` in `DDPG.train` (the stored reward is already
scaled at the call site). -/
structure Transition where
  observation : Obs
  action : Act
  reward : ℚ
  terminal : Bool
deriving DecidableEq, Repr

/-- A mini-batch as returned by `pool.random_batch` and consumed by
`ext.extract(batch, "observations", "actions", "rewards",
"next_observations", "terminals")` in `do_training`.  Terminals come
out of the pool's float arrays, hence `ℚ` values (0 or 1). -/
structure Batch where
  observations : List Obs
  actions : List Act
  rewards : List ℚ
  next_observations : List Obs
  terminals : List ℚ
deriving DecidableEq, Repr

/-- Which live network an optimizer was constructed over
(`self.qf.parameters()` or `self.policy.parameters()`). -/
inductive NetworkId where
  | qf
  | policy
deriving DecidableEq, Repr

/-- The arguments of an optimizer-construction call
`update_method(params, lr=..., weight_decay=...)`.  `weight_decay_arg`
is `none` when the keyword argument is omitted at the call site (the
update method then uses its own default, 0 for `optim.Adam`). -/
structure OptimizerSpec where
  params_of : NetworkId
  lr : ℚ
  weight_decay_arg : Option ℚ
deriving DecidableEq, Repr

/-- The scalar keyword arguments of `DDPG.__init__`, with the source's
default values.  (`qf_update_method` / `policy_update_method` are the
optimizer constructors; only the arguments passed to them are
modelled, via `OptimizerSpec`.) -/
structure DDPGArgs where
  batch_size : ℕ := 32
  n_epochs : ℕ := 200
  epoch_length : ℕ := 1000
  min_pool_size : ℕ := 10000
  replay_pool_size : ℕ := 1000000
  discount : ℚ := 99/100
  max_path_length : ℕ := 250
  qf_weight_decay : ℚ := 0
  qf_learning_rate : ℚ := 1/1000
  policy_weight_decay : ℚ := 0
  policy_learning_rate : ℚ := 1/10000
  eval_samples : ℕ := 10000
  soft_target : Bool := true
  soft_target_tau : ℚ := 1/1000
  n_updates_per_sample : ℕ := 1
  scale_reward : ℚ := 1
  include_horizon_terminal_transitions : Bool := false
deriving DecidableEq, Repr

/-- The trainer object: exactly the attributes `__init__` assigns to
`self` that the training logic reads (plot/logging accumulators that
are only initialized and the externally-held `env`/`es` objects are
carried separately as oracles).  Note there is no `soft_target` field:
`__init__` never stores that argument. -/
structure DDPG where
  batch_size : ℕ
  n_epoch : ℕ
  epoch_length : ℕ
  min_pool_size : ℕ
  replay_pool_size : ℕ
  discount : ℚ
  max_path_length : ℕ
  qf_weight_decay : ℚ
  eval_samples : ℕ
  soft_target_tau : ℚ
  n_updates_per_sample : ℕ
  include_horizon_terminal_transitions : Bool
  qf : Params
  policy : Params
  target_qf : Params
  target_policy : Params
  qf_optimizer : OptimizerSpec
  policy_optimizer : OptimizerSpec
  es_path_returns : List ℚ
  scale_reward : ℚ
deriving DecidableEq, Repr

/-- Embeds `DDPG.__init__`: stores the scalar configuration, deep-copies the
live networks into the target networks (`copy.deepcopy`: an
independent parameter store with equal values), and constructs the two
optimizers.  The critic's optimizer call passes
`lr=qf_learning_rate, weight_decay=self.qf_weight_decay`; the actor's
optimizer call passes `lr=policy_learning_rate` and no
`weight_decay` keyword (the `policy_weight_decay` argument is never
used). -/
def DDPG.init (args : DDPGArgs) (qf0 policy0 : Params) : DDPG :=
  { batch_size := args.batch_size
    n_epoch := args.n_epochs
    epoch_length := args.epoch_length
    min_pool_size := args.min_pool_size
    replay_pool_size := args.replay_pool_size
    discount := args.discount
    max_path_length := args.max_path_length
    qf_weight_decay := args.qf_weight_decay
    eval_samples := args.eval_samples
    soft_target_tau := args.soft_target_tau
    n_updates_per_sample := args.n_updates_per_sample
    include_horizon_terminal_transitions := args.include_horizon_terminal_transitions
    qf := qf0
    policy := policy0
    target_qf := qf0
    target_policy := policy0
    qf_optimizer :=
      { params_of := NetworkId.qf
        lr := args.qf_learning_rate
        weight_decay_arg := some args.qf_weight_decay }
    policy_optimizer :=
      { params_of := NetworkId.policy
        lr := args.policy_learning_rate
        weight_decay_arg := none }
    es_path_returns := []
    scale_reward := args.scale_reward }

/-- The opaque numerical collaborators: forward evaluation of the two
networks as functions of an explicit parameter vector, and the two
optimizer gradient steps.  `qfGradStep` is `train_qf`'s
zero_grad/backward/step on the MSE loss between `qf(obs, actions)` and
the expected Q-values; `policyGradStep` is `train_policy`'s step on
`-qf(obs, policy(obs)).mean()` — it receives the critic's parameters
because the loss is evaluated through the critic, but it produces only
new actor parameters (the policy optimizer is bound to
`self.policy.parameters()` alone). -/
structure Nets where
  policyFwd : Params → Obs → Act
  qfFwd : Params → Obs → Act → ℚ
  qfGradStep : Params → List Obs → List Act → List ℚ → Params
  policyGradStep : Params → Params → List Obs → Params

/-- Modelled from the spec: the source of
`pytorchrl/misc/tensor_utils.py` (function
`running_average_tensor_list`) is not in the provided sources.  The
spec's soft-update law: given live parameter value `a` and prior
target value `b`, the new target equals `τ·a + (1−τ)·b`.  At the call
sites the first argument is the prior target parameter list, the
second the live parameter list, the third the rate `τ`. -/
def running_average_tensor_list (target_values live_values : Params) (rate : ℚ) : Params :=
  List.zipWith (fun b a => rate * a + (1 - rate) * b) target_values live_values

/-- Computes `next_qvals` of `do_training`: evaluate the target actor on each
next-observation (`self.target_policy.get_action(next_obs)`) and the
target critic on the resulting pairs
(`self.target_qf.get_qval(next_obs, next_actions)`). -/
def next_qvals_of (nets : Nets) (s : DDPG) (next_obs : List Obs) : List ℚ :=
  List.zipWith (fun o a => nets.qfFwd s.target_qf o a) next_obs
    (next_obs.map (nets.policyFwd s.target_policy))

/-- Computes `ys = rewards + terminals_mask * self.discount * next_qvals` with
`terminals_mask = 1.0 - terminals`, elementwise over the mini-batch. -/
def compute_ys (discount : ℚ) (rewards terminals next_qvals : List ℚ) : List ℚ :=
  List.zipWith3 (fun r t q => r + (1 - t) * discount * q) rewards terminals next_qvals

/-- Embeds `DDPG.train_qf`: one optimizer step on the MSE loss between
`self.qf(obs, actions)` and `expected_qval`; only `self.qf`'s
parameters are stepped (the qf optimizer is bound to them). -/
def DDPG.train_qf (nets : Nets) (s : DDPG) (expected_qval : List ℚ)
    (obs_val : List Obs) (actions_val : List Act) : DDPG :=
  { s with qf := nets.qfGradStep s.qf obs_val actions_val expected_qval }

/-- Embeds `DDPG.train_policy`: one optimizer step on
`-self.qf(obs, self.policy(obs)).mean()`; only `self.policy`'s
parameters are stepped (the policy optimizer is bound to them; the
critic is only queried). -/
def DDPG.train_policy (nets : Nets) (s : DDPG) (obs_val : List Obs) : DDPG :=
  { s with policy := nets.policyGradStep s.policy s.qf obs_val }

/-- Embeds `DDPG.do_training`: the update step.  Extract the batch columns,
compute the regression targets from the target networks, fit the
critic, step the actor, then soft-update both target networks from the
(just-updated) live networks.  The `itr` parameter is accepted and
unused, as in the source. -/
def DDPG.do_training (nets : Nets) (s : DDPG) (_itr : ℕ) (batch : Batch) : DDPG :=
  let ys := compute_ys s.discount batch.rewards batch.terminals
    (next_qvals_of nets s batch.next_observations)
  let s1 := DDPG.train_qf nets s ys batch.observations batch.actions
  let s2 := DDPG.train_policy nets s1 batch.observations
  let s3 := { s2 with
    target_policy :=
      running_average_tensor_list s2.target_policy s2.policy s2.soft_target_tau }
  { s3 with
    target_qf :=
      running_average_tensor_list s3.target_qf s3.qf s3.soft_target_tau }

/-- The environment collaborator: `reset() -> observation` and
`step(action) -> (observation, reward, terminal, _)`, with its hidden
state threaded explicitly. -/
structure EnvOracle (E : Type) where
  reset : E → E × Obs
  step : E → Act → E × (Obs × ℚ × Bool)

/-- The exploration strategy collaborator: `reset()` and
`get_action(itr, observation, policy)`, with hidden state threaded
explicitly (`get_action` may evolve the noise state). -/
structure ESOracle (S : Type) where
  reset : S → S
  get_action : S → ℕ → Obs → Params → S × Act

/-- The pool's `random_batch(batch_size)`: a function of the sampler's
random state and the pool contents, returning the new random state and
the mini-batch. -/
abbrev Sampler (R : Type) := R → List Transition → ℕ → R × Batch

/-- The local state of `DDPG.train`'s loop: the trainer object plus
the loop variables (`pool`, `itr`, `path_length`, `path_return`,
`terminal`, `observation`) and the hidden states of the external
collaborators. -/
structure TrainState (E S R : Type) where
  self : DDPG
  pool : List Transition
  envState : E
  esState : S
  rng : R
  itr : ℕ
  path_length : ℕ
  path_return : ℚ
  terminal : Bool
  observation : Obs

/-- The episode-boundary reset at the top of the loop body:
`if terminal: observation = env.reset(); es.reset();
es_path_returns.append(path_return); path_length = 0;
path_return = 0`. -/
def resetIfTerminal {E S R : Type} (env : EnvOracle E) (es : ESOracle S)
    (st : TrainState E S R) : TrainState E S R :=
  if st.terminal then
    let p := env.reset st.envState
    { st with
      envState := p.1
      observation := p.2
      esState := es.reset st.esState
      self := { st.self with
        es_path_returns := st.self.es_path_returns ++ [st.path_return] }
      path_length := 0
      path_return := 0 }
  else st

/-- The inner update loop:
`for update_itr in range(n_updates_per_sample): batch =
pool.random_batch(batch_size); do_training(itr, batch)`.  Returns the
trainer after the updates, the sampler state, and the list of
mini-batches consumed (one fresh `random_batch` call per update). -/
def updateLoop {R : Type} (nets : Nets) (sample : Sampler R)
    (pool : List Transition) (bsz : ℕ) (itr : ℕ) :
    ℕ → DDPG → R → DDPG × R × List Batch
  | 0, s, r => (s, r, [])
  | n + 1, s, r =>
    let p := sample r pool bsz
    let s1 := DDPG.do_training nets s itr p.2
    let rest := updateLoop nets sample pool bsz itr n s1 p.1
    (rest.1, rest.2.1, p.2 :: rest.2.2)

/-- Result of one environment step of the training loop: the new loop
state and the mini-batches on which `do_training` was invoked during
this step. -/
structure StepResult (E S R : Type) where
  state : TrainState E S R
  updates : List Batch

/-- The storage decision of lines 139–145 of `train`: `if not
terminal and path_length >= max_path_length`, force termination and
store the (reward-scaled) transition only under
`include_horizon_terminal_transitions`; otherwise always store it with
the environment's terminal flag.  Returns the resulting terminal flag
and pool contents. -/
def horizonStore (self : DDPG) (pool : List Transition) (observation : Obs)
    (action : Act) (reward : ℚ) (terminal0 : Bool) (path_length1 : ℕ) :
    Bool × List Transition :=
  if terminal0 = false ∧ self.max_path_length ≤ path_length1 then
    (true,
      if self.include_horizon_terminal_transitions then
        pool ++ [⟨observation, action, reward * self.scale_reward, true⟩]
      else pool)
  else
    (terminal0,
      pool ++ [⟨observation, action, reward * self.scale_reward, terminal0⟩])

/-- The gated update block of lines 149–153 of `train`: if the pool
has reached `min_pool_size`, run `n_updates_per_sample` update steps
on freshly sampled mini-batches; otherwise do nothing. -/
def maybeUpdate {R : Type} (nets : Nets) (sample : Sampler R) (self : DDPG)
    (pool1 : List Transition) (itr : ℕ) (r : R) : DDPG × R × List Batch :=
  if self.min_pool_size ≤ pool1.length then
    updateLoop nets sample pool1 self.batch_size itr self.n_updates_per_sample self r
  else (self, r, [])

/-- The loop body after the episode-boundary reset: choose an action
from the exploration strategy, step the environment, bump the episode
accumulators, apply the horizon-truncation/storage policy, advance the
observation, and — if the pool has reached `min_pool_size` — run
`n_updates_per_sample` update steps on freshly sampled mini-batches;
finally `itr += 1`. -/
def stepCore {E S R : Type} (nets : Nets) (env : EnvOracle E) (es : ESOracle S)
    (sample : Sampler R) (st0 : TrainState E S R) : StepResult E S R :=
  let pa := es.get_action st0.esState st0.itr st0.observation st0.self.policy
  let esState1 := pa.1
  let action := pa.2
  let pe := env.step st0.envState action
  let envState1 := pe.1
  let next_observation := pe.2.1
  let reward := pe.2.2.1
  let terminal0 := pe.2.2.2
  let path_length1 := st0.path_length + 1
  let path_return1 := st0.path_return + reward
  let tp := horizonStore st0.self st0.pool st0.observation action reward terminal0 path_length1
  let terminal1 := tp.1
  let pool1 := tp.2
  let upd := maybeUpdate nets sample st0.self pool1 st0.itr st0.rng
  { state := { st0 with
      self := upd.1
      pool := pool1
      envState := envState1
      esState := esState1
      rng := upd.2.1
      itr := st0.itr + 1
      path_length := path_length1
      path_return := path_return1
      terminal := terminal1
      observation := next_observation }
    updates := upd.2.2 }

/-- One full environment step of `DDPG.train`'s inner loop:
episode-boundary reset, then the step body. -/
def envStep {E S R : Type} (nets : Nets) (env : EnvOracle E) (es : ESOracle S)
    (sample : Sampler R) (st : TrainState E S R) : StepResult E S R :=
  stepCore nets env es sample (resetIfTerminal env es st)

/-! ## Helper lemmas about the elementwise operations -/

theorem compute_ys_getD (disc : ℚ) (r t q : List ℚ) (i : ℕ)
    (hr : i < r.length) (ht : i < t.length) (hq : i < q.length) :
    (compute_ys disc r t q).getD i 0
      = r.getD i 0 + (1 - t.getD i 0) * disc * q.getD i 0 := by
  induction r generalizing t q i with
  | nil => exact absurd hr (by simp)
  | cons r0 rs ih =>
    cases t with
    | nil => exact absurd ht (by simp)
    | cons t0 ts =>
      cases q with
      | nil => exact absurd hq (by simp)
      | cons q0 qs =>
        cases i with
        | zero => rfl
        | succ i =>
          have h := ih ts qs i (Nat.lt_of_succ_lt_succ hr)
            (Nat.lt_of_succ_lt_succ ht) (Nat.lt_of_succ_lt_succ hq)
          simpa [compute_ys, List.zipWith3] using h

theorem running_average_tensor_list_getD (b a : Params) (τ : ℚ) (i : ℕ)
    (hb : i < b.length) (ha : i < a.length) :
    (running_average_tensor_list b a τ).getD i 0
      = τ * a.getD i 0 + (1 - τ) * b.getD i 0 := by
  induction b generalizing a i with
  | nil => exact absurd hb (by simp)
  | cons b0 bs ih =>
    cases a with
    | nil => exact absurd ha (by simp)
    | cons a0 as =>
      cases i with
      | zero => rfl
      | succ i =>
        have h := ih as i (Nat.lt_of_succ_lt_succ hb) (Nat.lt_of_succ_lt_succ ha)
        simpa [running_average_tensor_list] using h

theorem running_average_tensor_list_one (b a : Params) (h : b.length = a.length) :
    running_average_tensor_list b a 1 = a := by
  induction b generalizing a with
  | nil =>
    cases a with
    | nil => rfl
    | cons a0 as => exact absurd h (by simp)
  | cons b0 bs ih =>
    cases a with
    | nil => exact absurd h (by simp)
    | cons a0 as =>
      simp only [running_average_tensor_list, List.zipWith_cons_cons, List.cons.injEq] at *
      exact ⟨by ring, ih as (by simpa using h)⟩

theorem running_average_tensor_list_zero (b a : Params) (h : b.length = a.length) :
    running_average_tensor_list b a 0 = b := by
  induction b generalizing a with
  | nil => rfl
  | cons b0 bs ih =>
    cases a with
    | nil => exact absurd h (by simp)
    | cons a0 as =>
      simp only [running_average_tensor_list, List.zipWith_cons_cons, List.cons.injEq] at *
      exact ⟨by ring, ih as (by simpa using h)⟩

/-! ## Concrete fixtures used by witnesses -/

/-- A concrete set of opaque collaborators for witness instances. -/
def testNets : Nets :=
  { policyFwd := fun _ o => o
    qfFwd := fun _ _ _ => 7
    qfGradStep := fun p _ _ _ => p.map (· + 1)
    policyGradStep := fun p _ _ => p.map (· + 2) }

/-- A concrete trainer instance (default arguments, tiny parameter
vectors). -/
def testSelf : DDPG := DDPG.init {} [1, 2] [3, 4]

/-- A concrete two-transition mini-batch: the first row terminal, the
second not. -/
def c1Batch : Batch :=
  { observations := [[0], [0]]
    actions := [[0], [0]]
    rewards := [2, 3]
    next_observations := [[1], [2]]
    terminals := [1, 0] }

/-! ## C1: regression targets in `do_training` -/

/-- C1: In every update step (`do_training`), the regression target
for each transition in the mini-batch equals
`y = reward + (1 - terminal) * discount * next_q` elementwise, where
`next_q = TargetCritic(next_observations,
TargetActor(next_observations))` and terminal is in {0,1}; for a
transition with terminal = 1 the target equals exactly the stored
(scaled) reward, the bootstrap term being zeroed.  The first conjunct
records that these `ys` are exactly what the critic is regressed onto
inside `do_training`. -/
theorem ddpg_c1_regression_target (nets : Nets) (s : DDPG) (itr : ℕ) (batch : Batch)
    (i : ℕ)
    (hr : i < batch.rewards.length)
    (ht : i < batch.terminals.length)
    (hq : i < (next_qvals_of nets s batch.next_observations).length)
    (htv : batch.terminals.getD i 0 = 0 ∨ batch.terminals.getD i 0 = 1) :
    (DDPG.do_training nets s itr batch).qf
        = nets.qfGradStep s.qf batch.observations batch.actions
            (compute_ys s.discount batch.rewards batch.terminals
              (next_qvals_of nets s batch.next_observations))
    ∧ (compute_ys s.discount batch.rewards batch.terminals
          (next_qvals_of nets s batch.next_observations)).getD i 0
        = batch.rewards.getD i 0
            + (1 - batch.terminals.getD i 0) * s.discount
                * (next_qvals_of nets s batch.next_observations).getD i 0
    ∧ (batch.terminals.getD i 0 = 1 →
        (compute_ys s.discount batch.rewards batch.terminals
            (next_qvals_of nets s batch.next_observations)).getD i 0
          = batch.rewards.getD i 0) := by
  refine ⟨rfl, compute_ys_getD s.discount _ _ _ i hr ht hq, fun h1 => ?_⟩
  rw [compute_ys_getD s.discount _ _ _ i hr ht hq, h1]
  ring

/-- Witness for C1 at the concrete fixture: the first row of
`c1Batch` is terminal, and its regression target is exactly its
stored reward. -/
theorem ddpg_c1_witness :
    (0 < c1Batch.rewards.length
      ∧ 0 < c1Batch.terminals.length
      ∧ 0 < (next_qvals_of testNets testSelf c1Batch.next_observations).length
      ∧ (c1Batch.terminals.getD 0 0 = 0 ∨ c1Batch.terminals.getD 0 0 = 1)
      ∧ c1Batch.terminals.getD 0 0 = 1)
    ∧ (compute_ys testSelf.discount c1Batch.rewards c1Batch.terminals
          (next_qvals_of testNets testSelf c1Batch.next_observations)).getD 0 0
        = c1Batch.rewards.getD 0 0 :=
  ⟨⟨by decide, by decide, by decide, by decide, by decide⟩,
    (ddpg_c1_regression_target testNets testSelf 0 c1Batch 0
      (by decide) (by decide) (by decide) (by decide)).2.2 (by decide)⟩

/-! ## C2: soft target update after every update step -/

/-- C2: After every update step (`do_training` ends with the
synchronization, so it runs per update call, not per epoch), for both
actor and critic each target parameter with prior value `b` is
replaced by `τ·a + (1−τ)·b` where `a` is the corresponding live
parameter (post-gradient-step) and `τ = soft_target_tau`; `τ = 1`
yields a hard copy of the live parameters and `τ = 0` leaves the
target unchanged. -/
theorem ddpg_c2_soft_target_update (nets : Nets) (s : DDPG) (itr : ℕ) (batch : Batch)
    (b a : Params) (τ : ℚ) (i : ℕ)
    (hb : i < b.length) (ha : i < a.length) (hlen : b.length = a.length) :
    (DDPG.do_training nets s itr batch).target_policy
        = running_average_tensor_list s.target_policy
            (DDPG.do_training nets s itr batch).policy s.soft_target_tau
    ∧ (DDPG.do_training nets s itr batch).target_qf
        = running_average_tensor_list s.target_qf
            (DDPG.do_training nets s itr batch).qf s.soft_target_tau
    ∧ (running_average_tensor_list b a τ).getD i 0
        = τ * a.getD i 0 + (1 - τ) * b.getD i 0
    ∧ running_average_tensor_list b a 1 = a
    ∧ running_average_tensor_list b a 0 = b :=
  ⟨rfl, rfl, running_average_tensor_list_getD b a τ i hb ha,
    running_average_tensor_list_one b a hlen,
    running_average_tensor_list_zero b a hlen⟩

/-- Witness for C2 at concrete parameter lists: soft update with
`τ = 1` hard-copies `[9, 10]` over `[5, 6]`. -/
theorem ddpg_c2_witness :
    (0 < ([5, 6] : Params).length ∧ 0 < ([9, 10] : Params).length
      ∧ ([5, 6] : Params).length = ([9, 10] : Params).length)
    ∧ running_average_tensor_list [5, 6] [9, 10] 1 = [9, 10] :=
  ⟨⟨by decide, by decide, by decide⟩,
    (ddpg_c2_soft_target_update testNets testSelf 0 c1Batch [5, 6] [9, 10] (1/2) 0
      (by decide) (by decide) (by decide)).2.2.2.1⟩

/-! ## C4: optimizer configuration at construction -/

/-- C4 counterexample: construct a trainer whose only non-default
argument is `policy_weight_decay = 1`.  The claim says the actor's
optimizer is configured with that weight-decay coefficient; in the
code the optimizer-construction call for the policy passes no
`weight_decay` keyword at all, so the configured pair
(lr, weight-decay argument) is not
(`policy_learning_rate`, `policy_weight_decay`). -/
theorem ddpg_c4_counterexample :
    ¬ ((DDPG.init { policy_weight_decay := 1 } [] []).policy_optimizer.lr = (1/10000 : ℚ)
        ∧ (DDPG.init { policy_weight_decay := 1 } [] []).policy_optimizer.weight_decay_arg
            = some (1 : ℚ)) := by
  intro h
  exact Option.noConfusion h.2

/-- C4 amended: at construction the critic's optimizer is configured
with `qf_learning_rate` and `qf_weight_decay`, while the actor's
optimizer is configured with `policy_learning_rate` only — the
`policy_weight_decay` argument is accepted but never passed to the
optimizer (which therefore runs with the update method's default
weight decay), and changing `policy_weight_decay` does not change
either optimizer. -/
theorem ddpg_c4_optimizer_config (args : DDPGArgs) (qf0 policy0 : Params) (w : ℚ) :
    (DDPG.init args qf0 policy0).qf_optimizer
        = { params_of := NetworkId.qf
            lr := args.qf_learning_rate
            weight_decay_arg := some args.qf_weight_decay }
    ∧ (DDPG.init args qf0 policy0).policy_optimizer
        = { params_of := NetworkId.policy
            lr := args.policy_learning_rate
            weight_decay_arg := none }
    ∧ (DDPG.init { args with policy_weight_decay := w } qf0 policy0).qf_optimizer
        = (DDPG.init args qf0 policy0).qf_optimizer
    ∧ (DDPG.init { args with policy_weight_decay := w } qf0 policy0).policy_optimizer
        = (DDPG.init args qf0 policy0).policy_optimizer :=
  ⟨rfl, rfl, rfl, rfl⟩

/-! ## C9: the actor update leaves the critic's parameters unchanged -/

/-- C9: `train_policy` performs one gradient step on the negation of
`mean(Critic(obs, Actor(obs)))` through the actor's optimizer, which
is bound to the actor's parameters only: the critic's parameter values
(and both target networks) are identical before and after, and only
the actor's parameter vector is replaced (by the opaque optimizer
step, which queries the critic's current parameters). -/
theorem ddpg_c9_train_policy_frame (nets : Nets) (s : DDPG) (obs_val : List Obs) :
    (DDPG.train_policy nets s obs_val).qf = s.qf
    ∧ (DDPG.train_policy nets s obs_val).target_qf = s.target_qf
    ∧ (DDPG.train_policy nets s obs_val).target_policy = s.target_policy
    ∧ (DDPG.train_policy nets s obs_val).policy
        = nets.policyGradStep s.policy s.qf obs_val :=
  ⟨rfl, rfl, rfl, rfl⟩

/-! ## C8: target networks are cloned once and then only soft-updated -/

/-- C8: At construction the target networks are initialized as copies
of the live networks' parameters, the only two optimizers are bound to
the live critic and live actor respectively (none to a target
network), and thereafter the gradient sub-steps never touch the target
parameters: within each `do_training` call the targets change only by
the soft-tracking rule applied to their prior values (they are never
re-cloned from the live networks). -/
theorem ddpg_c8_target_lifecycle (args : DDPGArgs) (qf0 policy0 : Params)
    (nets : Nets) (s : DDPG) (itr : ℕ) (batch : Batch)
    (e : List ℚ) (o : List Obs) (acts : List Act) (obs2 : List Obs) :
    (DDPG.init args qf0 policy0).target_qf = qf0
    ∧ (DDPG.init args qf0 policy0).target_policy = policy0
    ∧ (DDPG.init args qf0 policy0).qf_optimizer.params_of = NetworkId.qf
    ∧ (DDPG.init args qf0 policy0).policy_optimizer.params_of = NetworkId.policy
    ∧ (DDPG.train_qf nets s e o acts).target_qf = s.target_qf
    ∧ (DDPG.train_qf nets s e o acts).target_policy = s.target_policy
    ∧ (DDPG.train_policy nets s obs2).target_qf = s.target_qf
    ∧ (DDPG.train_policy nets s obs2).target_policy = s.target_policy
    ∧ (DDPG.do_training nets s itr batch).target_policy
        = running_average_tensor_list s.target_policy
            (DDPG.do_training nets s itr batch).policy s.soft_target_tau
    ∧ (DDPG.do_training nets s itr batch).target_qf
        = running_average_tensor_list s.target_qf
            (DDPG.do_training nets s itr batch).qf s.soft_target_tau :=
  ⟨rfl, rfl, rfl, rfl, rfl, rfl, rfl, rfl, rfl, rfl⟩

/-! ## C10: the `soft_target` constructor argument is dead -/

/-- C10: `__init__` never stores or reads its `soft_target` argument,
so two trainers whose arguments differ only in `soft_target` are
identical objects: construction, the update step and the training-loop
step behave identically, and the soft target synchronization at the
end of `do_training` runs regardless of `soft_target`'s value. -/
theorem ddpg_c10_soft_target_unused {E S R : Type} (args : DDPGArgs) (b : Bool)
    (qf0 policy0 : Params) (nets : Nets) (env : EnvOracle E) (es : ESOracle S)
    (sample : Sampler R) (st : TrainState E S R) (itr : ℕ) (batch : Batch) :
    DDPG.init { args with soft_target := b } qf0 policy0 = DDPG.init args qf0 policy0
    ∧ DDPG.do_training nets (DDPG.init { args with soft_target := b } qf0 policy0) itr batch
        = DDPG.do_training nets (DDPG.init args qf0 policy0) itr batch
    ∧ envStep nets env es sample
          { st with self := DDPG.init { args with soft_target := b } qf0 policy0 }
        = envStep nets env es sample
          { st with self := DDPG.init args qf0 policy0 }
    ∧ (DDPG.do_training nets (DDPG.init { args with soft_target := b } qf0 policy0)
          itr batch).target_qf
        = running_average_tensor_list qf0
            (DDPG.do_training nets (DDPG.init args qf0 policy0) itr batch).qf
            args.soft_target_tau :=
  ⟨rfl, rfl, rfl, rfl⟩

/-! ## Helper lemmas about the loop body -/

/-- The episode-boundary reset never touches the pool, the step
counter, the sampler state, or any field of the trainer other than
`es_path_returns`. -/
theorem resetIfTerminal_preserved {E S R : Type} (env : EnvOracle E) (es : ESOracle S)
    (st : TrainState E S R) :
    (resetIfTerminal env es st).pool = st.pool
    ∧ (resetIfTerminal env es st).itr = st.itr
    ∧ (resetIfTerminal env es st).rng = st.rng
    ∧ (resetIfTerminal env es st).self.min_pool_size = st.self.min_pool_size
    ∧ (resetIfTerminal env es st).self.batch_size = st.self.batch_size
    ∧ (resetIfTerminal env es st).self.n_updates_per_sample = st.self.n_updates_per_sample
    ∧ (resetIfTerminal env es st).self.qf = st.self.qf
    ∧ (resetIfTerminal env es st).self.policy = st.self.policy
    ∧ (resetIfTerminal env es st).self.target_qf = st.self.target_qf
    ∧ (resetIfTerminal env es st).self.target_policy = st.self.target_policy := by
  unfold resetIfTerminal
  split <;> exact ⟨rfl, rfl, rfl, rfl, rfl, rfl, rfl, rfl, rfl, rfl⟩

/-- The inner update loop performs exactly `n` `do_training` calls,
one freshly sampled mini-batch each. -/
theorem updateLoop_updates_length {R : Type} (nets : Nets) (sample : Sampler R)
    (pool : List Transition) (bsz itr : ℕ) :
    ∀ (n : ℕ) (s : DDPG) (r : R),
      (updateLoop nets sample pool bsz itr n s r).2.2.length = n := by
  intro n
  induction n with
  | zero => intro s r; rfl
  | succ n ih =>
    intro s r
    simp only [updateLoop, List.length_cons]
    rw [ih]

/-! ## C6: episode accumulators reset before the next action -/

/-- C6: On a loop step that follows a terminal transition, the
environment and exploration strategy are reset and `path_length` and
`path_return` are set to 0, all inside `resetIfTerminal`, and the rest
of the step (which begins by querying the exploration policy for the
next action) runs on that reset state: `envStep` is definitionally
`stepCore` applied to `resetIfTerminal`'s output. -/
theorem ddpg_c6_episode_reset {E S R : Type} (nets : Nets) (env : EnvOracle E)
    (es : ESOracle S) (sample : Sampler R) (st : TrainState E S R)
    (hterm : st.terminal = true) :
    (resetIfTerminal env es st).path_length = 0
    ∧ (resetIfTerminal env es st).path_return = 0
    ∧ (resetIfTerminal env es st).esState = es.reset st.esState
    ∧ (resetIfTerminal env es st).envState = (env.reset st.envState).1
    ∧ (resetIfTerminal env es st).observation = (env.reset st.envState).2
    ∧ (resetIfTerminal env es st).self.es_path_returns
        = st.self.es_path_returns ++ [st.path_return]
    ∧ envStep nets env es sample st
        = stepCore nets env es sample (resetIfTerminal env es st) := by
  refine ⟨?_, ?_, ?_, ?_, ?_, ?_, rfl⟩ <;> simp [resetIfTerminal, hterm]

/-- Witness for C6: a concrete state whose previous step was
terminal. -/
theorem ddpg_c6_witness :
    ((⟨DDPG.init {} [1] [2], [], (), (), (), 4, 3, 9, true, [0]⟩ :
        TrainState Unit Unit Unit).terminal = true)
    ∧ (resetIfTerminal
        (⟨fun e => (e, [0]), fun e _ => (e, ([1], 5, false))⟩ : EnvOracle Unit)
        (⟨fun s => s, fun s _ _ _ => (s, [3])⟩ : ESOracle Unit)
        (⟨DDPG.init {} [1] [2], [], (), (), (), 4, 3, 9, true, [0]⟩ :
          TrainState Unit Unit Unit)).path_length = 0
    ∧ (resetIfTerminal
        (⟨fun e => (e, [0]), fun e _ => (e, ([1], 5, false))⟩ : EnvOracle Unit)
        (⟨fun s => s, fun s _ _ _ => (s, [3])⟩ : ESOracle Unit)
        (⟨DDPG.init {} [1] [2], [], (), (), (), 4, 3, 9, true, [0]⟩ :
          TrainState Unit Unit Unit)).path_return = 0 :=
  ⟨rfl,
    (ddpg_c6_episode_reset
      (⟨fun _ o => o, fun _ _ _ => 7, fun p _ _ _ => p, fun p _ _ => p⟩ : Nets)
      (⟨fun e => (e, [0]), fun e _ => (e, ([1], 5, false))⟩ : EnvOracle Unit)
      (⟨fun s => s, fun s _ _ _ => (s, [3])⟩ : ESOracle Unit)
      (fun r _ _ => (r, c1Batch))
      (⟨DDPG.init {} [1] [2], [], (), (), (), 4, 3, 9, true, [0]⟩ :
        TrainState Unit Unit Unit) rfl).1,
    (ddpg_c6_episode_reset
      (⟨fun _ o => o, fun _ _ _ => 7, fun p _ _ _ => p, fun p _ _ => p⟩ : Nets)
      (⟨fun e => (e, [0]), fun e _ => (e, ([1], 5, false))⟩ : EnvOracle Unit)
      (⟨fun s => s, fun s _ _ _ => (s, [3])⟩ : ESOracle Unit)
      (fun r _ _ => (r, c1Batch))
      (⟨DDPG.init {} [1] [2], [], (), (), (), 4, 3, 9, true, [0]⟩ :
        TrainState Unit Unit Unit) rfl).2.1⟩

/-- Concrete environment for witnesses: one observation, reward 5,
never terminates on its own. -/
def unitEnv : EnvOracle Unit :=
  { reset := fun e => (e, [0])
    step := fun e _ => (e, ([1], 5, false)) }

/-- Concrete exploration strategy for witnesses: stateless, always
action `[3]`. -/
def unitES : ESOracle Unit :=
  { reset := fun s => s
    get_action := fun s _ _ _ => (s, [3]) }

/-- Concrete mini-batch sampler for witnesses: always returns
`c1Batch`. -/
def unitSampler : Sampler Unit := fun r _ _ => (r, c1Batch)

/-! ## C3: horizon-truncated transitions are stored only under the flag -/

/-- C3: On a loop step where the episode reaches `max_path_length`
without the environment signaling termination (the step returns
terminal = false but the incremented path length reaches the maximum),
the transition is added to the pool — with terminal = true — exactly
when `include_horizon_terminal_transitions` is set; when the flag is
false the whole transition is dropped (the pool is unchanged).  The
step's resulting `terminal` flag is forced to true either way. -/
theorem ddpg_c3_horizon_truncation {E S R : Type} (nets : Nets) (env : EnvOracle E)
    (es : ESOracle S) (sample : Sampler R) (st st0 : TrainState E S R)
    (hst0 : st0 = resetIfTerminal env es st)
    (es1 : S) (a : Act)
    (hes : es.get_action st0.esState st0.itr st0.observation st0.self.policy = (es1, a))
    (e1 : E) (o1 : Obs) (r : ℚ)
    (henv : env.step st0.envState a = (e1, (o1, r, false)))
    (hmax : st0.self.max_path_length ≤ st0.path_length + 1) :
    ((envStep nets env es sample st).state.pool
        = if st0.self.include_horizon_terminal_transitions then
            st0.pool ++ [⟨st0.observation, a, r * st0.self.scale_reward, true⟩]
          else st0.pool)
    ∧ (st0.self.include_horizon_terminal_transitions = false →
        (envStep nets env es sample st).state.pool = st0.pool)
    ∧ (envStep nets env es sample st).state.terminal = true
    ∧ st0.pool = st.pool := by
  have hpool : st0.pool = st.pool := by
    rw [hst0]; exact (resetIfTerminal_preserved env es st).1
  have henvStep : envStep nets env es sample st = stepCore nets env es sample st0 := by
    rw [hst0]; rfl
  rw [henvStep]
  by_cases hinc : st0.self.include_horizon_terminal_transitions <;>
    simp [stepCore, horizonStore, hes, henv, hmax, hinc, hpool]

/-- A concrete loop state one step away from horizon truncation
(`max_path_length = 1`, flag unset, previous step not terminal). -/
def c3State : TrainState Unit Unit Unit :=
  { self := DDPG.init { max_path_length := 1, include_horizon_terminal_transitions := false }
      [1] [2]
    pool := []
    envState := ()
    esState := ()
    rng := ()
    itr := 0
    path_length := 0
    path_return := 0
    terminal := false
    observation := [0] }

/-- Witness for C3: at `c3State` the environment step does not
terminate, path length reaches the maximum, the flag is false — and
the transition is dropped entirely (pool unchanged). -/
theorem ddpg_c3_witness :
    (c3State = resetIfTerminal unitEnv unitES c3State
      ∧ unitES.get_action c3State.esState c3State.itr c3State.observation c3State.self.policy
          = ((), [3])
      ∧ unitEnv.step c3State.envState [3] = ((), ([1], 5, false))
      ∧ c3State.self.max_path_length ≤ c3State.path_length + 1
      ∧ c3State.self.include_horizon_terminal_transitions = false)
    ∧ (envStep testNets unitEnv unitES unitSampler c3State).state.pool = c3State.pool :=
  ⟨⟨rfl, rfl, rfl, by decide, rfl⟩,
    (ddpg_c3_horizon_truncation testNets unitEnv unitES unitSampler c3State c3State
      rfl () [3] rfl () [1] 5 rfl (by decide)).2.1 rfl⟩

/-! ## C7: stored rewards are the raw rewards times `scale_reward` -/

/-- C7: Every transition present in the pool after a loop step either
was already there before the step, or is the transition stored by this
step — whose reward field is the environment's raw reward multiplied
by `scale_reward`, and whose observation and action fields are the raw
observation and chosen action, unrescaled. -/
theorem ddpg_c7_reward_scaling {E S R : Type} (nets : Nets) (env : EnvOracle E)
    (es : ESOracle S) (sample : Sampler R) (st st0 : TrainState E S R)
    (hst0 : st0 = resetIfTerminal env es st)
    (es1 : S) (a : Act)
    (hes : es.get_action st0.esState st0.itr st0.observation st0.self.policy = (es1, a))
    (e1 : E) (o1 : Obs) (r : ℚ) (term : Bool)
    (henv : env.step st0.envState a = (e1, (o1, r, term))) :
    ∀ tr ∈ (envStep nets env es sample st).state.pool,
      tr ∈ st.pool
      ∨ (tr.observation = st0.observation ∧ tr.action = a
          ∧ tr.reward = r * st0.self.scale_reward) := by
  have hpool : st0.pool = st.pool := by
    rw [hst0]; exact (resetIfTerminal_preserved env es st).1
  have henvStep : envStep nets env es sample st = stepCore nets env es sample st0 := by
    rw [hst0]; rfl
  intro tr htr
  rw [henvStep] at htr
  simp only [stepCore, horizonStore, hes, henv] at htr
  split at htr
  · split at htr
    · rcases List.mem_append.mp htr with h | h
      · exact Or.inl (hpool ▸ h)
      · rcases List.mem_singleton.mp h with rfl
        exact Or.inr ⟨rfl, rfl, rfl⟩
    · exact Or.inl (hpool ▸ htr)
  · rcases List.mem_append.mp htr with h | h
    · exact Or.inl (hpool ▸ h)
    · rcases List.mem_singleton.mp h with rfl
      exact Or.inr ⟨rfl, rfl, rfl⟩

/-- A concrete loop state with `scale_reward = 3`, far from the
horizon, previous step not terminal. -/
def c7State : TrainState Unit Unit Unit :=
  { self := DDPG.init { scale_reward := 3 } [1] [2]
    pool := []
    envState := ()
    esState := ()
    rng := ()
    itr := 0
    path_length := 0
    path_return := 0
    terminal := false
    observation := [0] }

/-- Witness for C7: the raw reward is 5 and `scale_reward` is 3; the
transition this step stores satisfies the scaling property. -/
theorem ddpg_c7_witness :
    (c7State = resetIfTerminal unitEnv unitES c7State
      ∧ unitES.get_action c7State.esState c7State.itr c7State.observation c7State.self.policy
          = ((), [3])
      ∧ unitEnv.step c7State.envState [3] = ((), ([1], 5, false)))
    ∧ ((⟨[0], [3], 5 * 3, false⟩ : Transition) ∈ c7State.pool
        ∨ ((⟨[0], [3], 5 * 3, false⟩ : Transition).observation = c7State.observation
            ∧ (⟨[0], [3], 5 * 3, false⟩ : Transition).action = [3]
            ∧ (⟨[0], [3], 5 * 3, false⟩ : Transition).reward
                = 5 * c7State.self.scale_reward)) :=
  ⟨⟨rfl, rfl, rfl⟩,
    ddpg_c7_reward_scaling testNets unitEnv unitES unitSampler c7State c7State rfl
      () [3] rfl () [1] 5 false rfl
      ⟨[0], [3], 5 * 3, false⟩ (List.mem_singleton.mpr rfl)⟩

/-! ## C5: the warm-up gate around the update loop -/

/-- C5: On every loop step, after the (possibly skipped) store
insertion: if the pool's size has reached `min_pool_size` then exactly
`n_updates_per_sample` `do_training` calls run, each on a mini-batch
freshly drawn by `random_batch(batch_size)` (the trainer, sampler
state and consumed batches are exactly the result of `updateLoop`,
which samples once per update); if the pool is still below
`min_pool_size`, no update step runs and the trainer is unchanged. -/
theorem ddpg_c5_update_gating {E S R : Type} (nets : Nets) (env : EnvOracle E)
    (es : ESOracle S) (sample : Sampler R) (st : TrainState E S R) :
    (st.self.min_pool_size ≤ (envStep nets env es sample st).state.pool.length →
        (envStep nets env es sample st).updates.length = st.self.n_updates_per_sample
        ∧ ((envStep nets env es sample st).state.self,
            (envStep nets env es sample st).state.rng,
            (envStep nets env es sample st).updates)
            = updateLoop nets sample (envStep nets env es sample st).state.pool
                st.self.batch_size st.itr st.self.n_updates_per_sample
                (resetIfTerminal env es st).self st.rng)
    ∧ ((envStep nets env es sample st).state.pool.length < st.self.min_pool_size →
        (envStep nets env es sample st).updates = []
        ∧ (envStep nets env es sample st).state.self = (resetIfTerminal env es st).self
        ∧ (envStep nets env es sample st).state.rng = st.rng) := by
  obtain ⟨hpool, hitr, hrng, hmin, hbsz, hnup, -, -, -, -⟩ :=
    resetIfTerminal_preserved env es st
  have hkey : ((envStep nets env es sample st).state.self,
      (envStep nets env es sample st).state.rng,
      (envStep nets env es sample st).updates)
      = maybeUpdate nets sample (resetIfTerminal env es st).self
          ((envStep nets env es sample st).state.pool)
          (resetIfTerminal env es st).itr (resetIfTerminal env es st).rng := rfl
  constructor
  · intro h
    have h' : (resetIfTerminal env es st).self.min_pool_size
        ≤ (envStep nets env es sample st).state.pool.length := by rw [hmin]; exact h
    rw [maybeUpdate, if_pos h', hbsz, hitr, hrng, hnup] at hkey
    refine ⟨?_, hkey⟩
    have hu := congrArg (fun p => p.2.2) hkey
    simp only at hu
    rw [hu, updateLoop_updates_length]
  · intro h
    have h' : ¬ ((resetIfTerminal env es st).self.min_pool_size
        ≤ (envStep nets env es sample st).state.pool.length) := by
      rw [hmin]; exact Nat.not_le.mpr h
    rw [maybeUpdate, if_neg h'] at hkey
    exact ⟨congrArg (fun p => p.2.2) hkey,
      congrArg (fun p => p.1) hkey,
      (congrArg (fun p => p.2.1) hkey).trans hrng⟩

/-- A concrete loop state whose `min_pool_size` is 0, so the update
gate is open. -/
def c5State : TrainState Unit Unit Unit :=
  { self := DDPG.init { min_pool_size := 0 } [1] [2]
    pool := []
    envState := ()
    esState := ()
    rng := ()
    itr := 0
    path_length := 0
    path_return := 0
    terminal := false
    observation := [0] }

/-- Witness for C5: with the warm-up threshold at 0 the gate is open
and exactly `n_updates_per_sample` (= 1) update steps run. -/
theorem ddpg_c5_witness :
    c5State.self.min_pool_size
        ≤ (envStep testNets unitEnv unitES unitSampler c5State).state.pool.length
    ∧ (envStep testNets unitEnv unitES unitSampler c5State).updates.length
        = c5State.self.n_updates_per_sample :=
  ⟨by decide,
    ((ddpg_c5_update_gating testNets unitEnv unitES unitSampler c5State).1 (by decide)).1⟩
